import Mathlib

/-
Verification development for the BMI & Health Planner application
(src/BMI/bmi.py).  The numeric core of the program is shallowly embedded
over the rationals: Python floats become ℚ, Python ints become ℤ, Python
`round` (banker's rounding, ties to even) is modelled exactly by `pround`,
and fallible parsing of entry-widget text becomes `Option`-valued parsers.
Tkinter widget mutation is modelled as explicit state passing over an
`AppState` record holding the fields the engine reads and writes
(current profile, history list, hydration milliliters).
-/

namespace BMICalc

/-- Measurement unit system, source field `unit_system` with string values
"metric" and "imperial". -/
inductive UnitSystem where
  | metric
  | imperial
deriving DecidableEq, Repr

/-- Gender selection, source `gender` StringVar with values "Male" and
"Female". -/
inductive Gender where
  | male
  | female
deriving DecidableEq, Repr

/-- Activity level, the five keys of `ACTIVITY_MULTIPLIERS` (bmi.py lines
108-111). -/
inductive Activity where
  | sedentary
  | lightlyActive
  | moderatelyActive
  | veryActive
  | extraActive
deriving DecidableEq, Repr

/-- Health goal, source `goal_options = ["Lose Weight", "Maintain Weight",
"Gain Muscle"]`. -/
inductive Goal where
  | loseWeight
  | maintainWeight
  | gainMuscle
deriving DecidableEq, Repr

/-- Diet preference, source `DIET_OPTIONS = ["Omnivore", "Vegetarian",
"Vegan"]`. -/
inductive Diet where
  | omnivore
  | vegetarian
  | vegan
deriving DecidableEq, Repr

/-- Class constant `BMI_MIN_NORMAL = 18.5` (bmi.py line 101). -/
def BMI_MIN_NORMAL : ℚ := 18.5

/-- Class constant `BMI_MAX_NORMAL = 24.9` (bmi.py line 102). -/
def BMI_MAX_NORMAL : ℚ := 24.9

/-- Class constant `BMI_EXTREME_LOW = 16.0` (bmi.py line 103). -/
def BMI_EXTREME_LOW : ℚ := 16.0

/-- Class constant `BMI_EXTREME_HIGH = 35.0` (bmi.py line 104). -/
def BMI_EXTREME_HIGH : ℚ := 35.0

/-- Class constant `WATER_GOAL_ML = 2500` (bmi.py line 106). -/
def WATER_GOAL_ML : ℤ := 2500

/-- Style constant `COLOR_ACCENT_GREEN` (bmi.py line 70). -/
def COLOR_ACCENT_GREEN : String := "#4CAF50"

/-- Style constant `COLOR_ACCENT_BLUE` (bmi.py line 71). -/
def COLOR_ACCENT_BLUE : String := "#1E90FF"

/-- Style constant `COLOR_DANGER` (bmi.py line 72). -/
def COLOR_DANGER : String := "#FF4500"

/-- Style constant `COLOR_WARNING` (bmi.py line 73). -/
def COLOR_WARNING : String := "#FFD700"

/-- `ACTIVITY_MULTIPLIERS` dictionary (bmi.py lines 108-111); every
`Activity` value is a key, so the `.get` default 1.55 at line 1235 is never
taken. -/
def ACTIVITY_MULTIPLIERS : Activity → ℚ
  | .sedentary => 1.2
  | .lightlyActive => 1.375
  | .moderatelyActive => 1.55
  | .veryActive => 1.725
  | .extraActive => 1.9

/-- Python builtin `round(x)`: nearest integer, ties resolved to the even
integer (banker's rounding). -/
def pround (x : ℚ) : ℤ :=
  if x - (⌊x⌋ : ℚ) < 1 / 2 then ⌊x⌋
  else if 1 / 2 < x - (⌊x⌋ : ℚ) then ⌊x⌋ + 1
  else if 2 ∣ ⌊x⌋ then ⌊x⌋ else ⌊x⌋ + 1

/-- Python `round(x, 2)`: rounding to two decimal places, used for the
`bmi` field of a history record (bmi.py line 958). -/
def round2 (x : ℚ) : ℚ := (pround (x * 100) : ℚ) / 100

/-- `perform_calculation(self, weight, height, unit)` (bmi.py lines
1125-1131): metric is kg and meters, imperial is lbs and total inches. -/
def perform_calculation (weight height : ℚ) (unit : UnitSystem) : ℚ :=
  match unit with
  | .metric => weight / height ^ 2
  | .imperial => weight / height ^ 2 * 703

/-- The severe-alert message built at bmi.py line 1148.  The Python code
interpolates `bmi` formatted to two decimal places; the numeric rendering
is abstracted to ℚ's `toString`, which keeps the message's fixed leading
text and its dependence on `bmi` while staying exact. -/
def alert_msg (bmi : ℚ) : String :=
  "‼️ **SEVERE HEALTH RISK INDICATOR:** Your BMI is " ++ toString bmi ++
    ". **This tool suggests your value is critically outside the norm.** Seek immediate medical guidance. "

/-- Rendering of `gender.lower()` used in the Normal Weight warning
(bmi.py line 1157). -/
def gender_lower : Gender → String
  | .male => "male"
  | .female => "female"

/-- The warning narrative chosen by the category if-chain at bmi.py lines
1153-1164 (without the severe-alert leading text, which the caller
concatenates in front, mirroring `warning_prefix + ...`). -/
def warning_body (category : String) (gender : Gender) (age : ℤ) : String :=
  if category = "Underweight" then
    "Possible risks: Weakened immune system, anemia, osteoporosis, and fertility issues. Consult a professional."
  else if category = "Normal Weight" then
    "Maintain healthy habits. As a " ++ gender_lower gender ++
      ", ensure adequate protein intake, especially after age 40 (for " ++
      toString age ++ " year old)."
  else if category = "Overweight" then
    "Increased risk of: Type 2 diabetes, high blood pressure, and joint problems. Prioritize consistent calorie deficit and activity."
  else
    "High risk of: Severe cardiovascular disease, stroke, sleep apnea, and reduced mobility. Start with low-impact activity immediately."

/-- The benefit narrative chosen by the same category if-chain (bmi.py
lines 1153-1164). -/
def benefit_body (category : String) : String :=
  if category = "Underweight" then
    "Benefits of reaching normal weight: Improved energy, stronger bones, and better immune function. Focus on nutrient-dense calories."
  else if category = "Normal Weight" then
    "Benefits: Lowest risk of major chronic diseases, better mobility, and higher life expectancy."
  else if category = "Overweight" then
    "Benefits of losing weight: Lower blood pressure, better sleep quality, improved energy levels, and reduced joint strain."
  else
    "Benefits of weight management: Dramatic reduction in disease risk, increased mobility, and improved overall mental health."

/-- Result record of `categorize_bmi`: the 6-tuple returned at bmi.py
line 1168. -/
structure CategorizeResult where
  category : String
  color : String
  description : String
  bgColor : String
  warning : String
  benefit : String
deriving DecidableEq, Repr

/-- `categorize_bmi(self, bmi, gender, unit, age)` (bmi.py lines
1133-1168).  The source assigns `category, color, bg_color` in a single
threshold if-chain (lines 1137-1144); here the chain is written once per
component with identical conditions.  The severe-risk override at lines
1146-1151 replaces `color` and `bg_color` and fills `warning_prefix`,
leaving `category` untouched; the returned warning string is
`warning_prefix + <category body>`.  The `unit` parameter is unused in the
source and omitted. -/
def categorize_bmi (bmi : ℚ) (gender : Gender) (age : ℤ) : CategorizeResult :=
  let category :=
    if bmi < 18.5 then "Underweight"
    else if 18.5 ≤ bmi ∧ bmi < 25.0 then "Normal Weight"
    else if 25.0 ≤ bmi ∧ bmi < 30.0 then "Overweight"
    else "Obesity"
  let color0 :=
    if bmi < 18.5 then COLOR_ACCENT_BLUE
    else if 18.5 ≤ bmi ∧ bmi < 25.0 then COLOR_ACCENT_GREEN
    else if 25.0 ≤ bmi ∧ bmi < 30.0 then COLOR_WARNING
    else COLOR_DANGER
  let bg0 :=
    if bmi < 18.5 then "#E3F2FD"
    else if 18.5 ≤ bmi ∧ bmi < 25.0 then "#E8F5E9"
    else if 25.0 ≤ bmi ∧ bmi < 30.0 then "#FFFDE7"
    else "#FFEBEE"
  let severe := bmi < BMI_EXTREME_LOW ∨ BMI_EXTREME_HIGH < bmi
  { category := category
    color := if severe then COLOR_DANGER else color0
    description := "Check warnings for details."
    bgColor := if severe then "#FFCDD2" else bg0
    warning := (if severe then alert_msg bmi else "") ++ warning_body category gender age
    benefit := benefit_body category }

/-- The validated inputs dictionary returned by `validate_and_get_inputs`
(bmi.py lines 1050-1057).  For imperial, `weight` is lbs and `height` is
total inches; for metric, kg and meters. -/
structure Inputs where
  name : String
  weight : ℚ
  height : ℚ
  age : ℤ
  gender : Gender
  activity : Activity
  goal : Goal
  diet : Diet
  unit : UnitSystem
deriving DecidableEq, Repr

/-- `self.current_inputs` after a successful calculation: the validated
inputs plus the derived `category` and `bmi` keys added at bmi.py lines
1104-1105. -/
structure Profile extends Inputs where
  bmi : ℚ
  category : String
deriving DecidableEq, Repr

/-- The contextual reminder chosen at bmi.py lines 1257-1264. -/
inductive Reminder where
  | boneHealth
  | hydrationTip
  | recoveryTip
  | genericTip
deriving DecidableEq, Repr

/-- The numeric outputs of `generate_diet_plan` (the plan's narrative
text around them is presentation). -/
structure DietPlan where
  weight_kg : ℚ
  height_cm : ℚ
  bmr : ℚ
  tdee : ℚ
  cal_target : ℚ
  macroP : ℚ
  macroC : ℚ
  macroF : ℚ
  prot_g : ℤ
  carb_g : ℤ
  fat_g : ℤ
  reminder : Reminder
deriving DecidableEq, Repr

/-- `generate_diet_plan(self, inputs)` (bmi.py lines 1209-1264), restricted
to its computed quantities: unit standardization to kg/cm (lines
1222-1227), gender-specific Harris-Benedict BMR (lines 1230-1233), TDEE
(lines 1235-1236), goal-dependent calorie target and macro split (lines
1239-1250), gram rounding (lines 1252-1254), and the reminder priority
chain (lines 1257-1264). -/
def generate_diet_plan (p : Profile) : DietPlan :=
  let weight_kg := match p.unit with
    | .imperial => p.weight / 2.20462
    | .metric => p.weight
  let height_cm := match p.unit with
    | .imperial => p.height * 2.54
    | .metric => p.height * 100
  let bmr := match p.gender with
    | .male => 88.362 + 13.397 * weight_kg + 4.799 * height_cm - 5.677 * (p.age : ℚ)
    | .female => 447.593 + 9.247 * weight_kg + 3.098 * height_cm - 4.330 * (p.age : ℚ)
  let tdee := bmr * ACTIVITY_MULTIPLIERS p.activity
  let cal_target := match p.goal with
    | .loseWeight => tdee - 500
    | .gainMuscle => tdee + 300
    | .maintainWeight => tdee
  let macroP : ℚ := match p.goal with
    | .loseWeight => 0.35
    | .gainMuscle => 0.30
    | .maintainWeight => 0.25
  let macroC : ℚ := match p.goal with
    | .loseWeight => 0.40
    | .gainMuscle => 0.50
    | .maintainWeight => 0.45
  let macroF : ℚ := match p.goal with
    | .loseWeight => 0.25
    | .gainMuscle => 0.20
    | .maintainWeight => 0.30
  { weight_kg := weight_kg
    height_cm := height_cm
    bmr := bmr
    tdee := tdee
    cal_target := cal_target
    macroP := macroP
    macroC := macroC
    macroF := macroF
    prot_g := pround (cal_target * macroP / 4)
    carb_g := pround (cal_target * macroC / 4)
    fat_g := pround (cal_target * macroF / 9)
    reminder :=
      if 50 < p.age then Reminder.boneHealth
      else if p.category = "Overweight" ∨ p.category = "Obesity" then Reminder.hydrationTip
      else if p.activity = .extraActive then Reminder.recoveryTip
      else Reminder.genericTip }

/-- Python's textual rendering of a number, used inside formatted weight
and height strings; abstracted to ℚ's `toString`. -/
def q_repr (x : ℚ) : String := toString x

/-- The height string built by `save_history` (bmi.py lines 945-954) and
replicated verbatim in `get_personalized_health_report` (lines 445-453):
for imperial, `feet = int(height // 12)` and `inches = round(height % 12)`
are computed independently, so `inches` can be 12. -/
def format_height (unit : UnitSystem) (height : ℚ) : String :=
  match unit with
  | .metric => q_repr height ++ " m"
  | .imperial =>
      toString (⌊height / 12⌋ : ℤ) ++ " ft " ++
        toString (pround (height - 12 * (⌊height / 12⌋ : ℚ))) ++ " in"

/-- The weight string built by `save_history` (bmi.py lines 945-954). -/
def format_weight (unit : UnitSystem) (weight : ℚ) : String :=
  match unit with
  | .metric => q_repr weight ++ " kg"
  | .imperial => q_repr weight ++ " lbs"

/-- One element of the history JSON array (bmi.py lines 956-961). -/
structure HistoryRecord where
  date : String
  bmi : ℚ
  category : String
  weight : String
  height : String
deriving DecidableEq, Repr

/-- The `new_record` dictionary of `save_history` (bmi.py lines 956-961);
`datetime.now()` is passed in as the `date` argument. -/
def make_record (date : String) (inputs : Inputs) (bmi : ℚ) (category : String) :
    HistoryRecord :=
  { date := date
    bmi := round2 bmi
    category := category
    weight := format_weight inputs.unit inputs.weight
    height := format_height inputs.unit inputs.height }

/-- `save_history(self, inputs, bmi, category)` (bmi.py lines 942-963) as
a pure list transformation: append the new record, then keep the last 20
(`self.history = self.history[-20:]`).  The file write (lines 965-969) is
a collaborator effect. -/
def save_history (history : List HistoryRecord) (date : String) (inputs : Inputs)
    (bmi : ℚ) (category : String) : List HistoryRecord :=
  let h := history ++ [make_record date inputs bmi category]
  h.drop (h.length - 20)

/-- Content of a numeric entry widget as the validation code sees it:
empty text, text that is not a number (Python `float`/`int` raise
`ValueError`), or a number. -/
inductive FloatEntry where
  | empty
  | invalid
  | num (x : ℚ)
deriving DecidableEq, Repr

/-- Content of an integer entry widget (`int(...)` parsing). -/
inductive IntEntry where
  | empty
  | invalid
  | num (n : ℤ)
deriving DecidableEq, Repr

/-- `float(entry.get())`: empty and malformed text both raise. -/
def parseFloat : FloatEntry → Option ℚ
  | .num x => some x
  | _ => none

/-- `float(entry.get() or 0)` (bmi.py lines 1035-1036): empty text is
replaced by 0 before parsing, malformed text still raises. -/
def parseFloatOrZero : FloatEntry → Option ℚ
  | .empty => some 0
  | .invalid => none
  | .num x => some x

/-- `int(entry.get())`: empty and malformed text both raise. -/
def parseInt : IntEntry → Option ℤ
  | .num n => some n
  | _ => none

/-- The form widgets read by `validate_and_get_inputs` (bmi.py lines
1020-1057): text entries plus the enum-valued selector variables. -/
structure Form where
  name : String
  unit : UnitSystem
  weightEntry : FloatEntry
  ageEntry : IntEntry
  metricHeightEntry : FloatEntry
  ftEntry : FloatEntry
  inEntry : FloatEntry
  gender : Gender
  activity : Activity
  goal : Goal
  diet : Diet
deriving Repr

/-- The distinct validation failures reported by
`validate_and_get_inputs` via the feedback label (bmi.py lines 1023, 1041,
1045, 1060). -/
inductive VError where
  | emptyName
  | invalidNumber
  | nonPositive
  | ageRange
deriving DecidableEq, Repr

/-- The height computed inside the `try` block (bmi.py lines 1032-1038):
metric reads the meters entry; imperial reads feet and inches entries
(empty treated as 0) and standardizes to total inches `feet * 12 +
inches`. -/
def parseHeight (f : Form) : Option ℚ :=
  match f.unit with
  | .metric => parseFloat f.metricHeightEntry
  | .imperial =>
      match parseFloatOrZero f.ftEntry, parseFloatOrZero f.inEntry with
      | some ft, some inch => some (ft * 12 + inch)
      | _, _ => none

/-- `validate_and_get_inputs(self)` (bmi.py lines 1020-1061): empty
(stripped) name is rejected first; any `ValueError` from number parsing is
rejected; then non-positive weight or height; then age outside [16, 120];
otherwise the inputs dictionary is returned. -/
def validate_and_get_inputs (f : Form) : Except VError Inputs :=
  if f.name.trim = "" then .error .emptyName
  else
    match parseFloat f.weightEntry, parseInt f.ageEntry, parseHeight f with
    | some weight, some age, some height =>
        if weight ≤ 0 ∨ height ≤ 0 then .error .nonPositive
        else if ¬(16 ≤ age ∧ age ≤ 120) then .error .ageRange
        else .ok { name := f.name.trim, weight := weight, height := height,
                   age := age, gender := f.gender, activity := f.activity,
                   goal := f.goal, diet := f.diet, unit := f.unit }
    | _, _, _ => .error .invalidNumber

/-- The engine-relevant mutable state of `BMICalculatorApp`: the cached
profile `self.current_inputs`, the history list `self.history`, and the
hydration counter `self.water_intake_ml`. -/
structure AppState where
  current_inputs : Option Profile
  history : List HistoryRecord
  water_intake_ml : ℤ
deriving DecidableEq, Repr

/-- `calculate_bmi_gui(self)` (bmi.py lines 1088-1122) as a state
transition: if validation fails the method returns immediately (line
1094) and the state is untouched; otherwise the profile is replaced, BMI
and category are computed, and the record is appended to history.  Label
updates are presentation. -/
def calculate_bmi_gui (date : String) (f : Form) (s : AppState) : AppState :=
  match validate_and_get_inputs f with
  | .error _ => s
  | .ok inputs =>
      let bmi := perform_calculation inputs.weight inputs.height inputs.unit
      let r := categorize_bmi bmi inputs.gender inputs.age
      { current_inputs := some { toInputs := inputs, bmi := bmi, category := r.category }
        history := save_history s.history date inputs bmi r.category
        water_intake_ml := s.water_intake_ml }

/-- `log_water_intake(self)` (bmi.py lines 901-913): the amount entry is
parsed with `int`, non-positive amounts raise, and any `ValueError` shows
an error message leaving the counter unchanged; otherwise the amount is
added to `water_intake_ml`. -/
def log_water_intake (amountEntry : IntEntry) (s : AppState) : AppState :=
  match parseInt amountEntry with
  | some amount =>
      if amount ≤ 0 then s
      else { s with water_intake_ml := s.water_intake_ml + amount }
  | none => s

/-- `clear_inputs(self)` (bmi.py lines 971-997): clears the cached
profile (`self.current_inputs = {}`) and resets hydration
(`self.water_intake_ml.set(0)`, line 980). -/
def clear_inputs (s : AppState) : AppState :=
  { s with current_inputs := none, water_intake_ml := 0 }

/-- `update_unit_labels(self)` (bmi.py lines 999-1018): relabels widgets
(presentation) and then calls `clear_inputs` (line 1018). -/
def update_unit_labels (s : AppState) : AppState :=
  clear_inputs s

/-- Python `str.lower()`: character-wise lowercasing. -/
def py_lower (s : String) : String := String.mk (s.data.map Char.toLower)

/-- Whether `pat` occurs as a contiguous run inside the character list. -/
def has_infix (pat : List Char) : List Char → Bool
  | [] => pat.isEmpty
  | c :: rest => pat.isPrefixOf (c :: rest) || has_infix pat rest

/-- Python substring membership `pat in q`. -/
def containsSub (q pat : String) : Bool := has_infix pat.data q.data

/-- The fourteen answer branches of `get_rule_based_response` (bmi.py
lines 476-551), in source order.  The answer text composed by each branch
(with its dynamic water/profile interpolations) is abstracted to the
branch that produces it; the claims under verification concern which
branch answers. -/
inductive RuleBranch where
  | waterStatus
  | dietPlanQ
  | healthReport
  | disclaimerInfo
  | medication
  | diabetes
  | cardio
  | allergy
  | bmiInfo
  | weightLossFoods
  | exercise
  | balancedDiet
  | greeting
  | fallback
deriving DecidableEq, Repr

/-- `get_rule_based_response(self, query)` (bmi.py lines 476-551): the
query is lowercased (`q = query.lower()`, line 479) and the rules are
tried top to bottom, first match wins; the keyword sets and their order
are transcribed exactly from the source's if-chain. -/
def get_rule_based_response (query : String) : RuleBranch :=
  let q := py_lower query
  if containsSub q "water status" || containsSub q "my water" ||
      containsSub q "hydration" || containsSub q "how much water" then .waterStatus
  else if containsSub q "diet plan" || containsSub q "my goals" ||
      containsSub q "my plan" then .dietPlanQ
  else if containsSub q "my health report" || containsSub q "my metrics" then .healthReport
  else if containsSub q "what is the medical disclaimer" then .disclaimerInfo
  else if containsSub q "medication" || containsSub q "drug" ||
      containsSub q "supplements" then .medication
  else if containsSub q "diabetes" || containsSub q "blood sugar" then .diabetes
  else if containsSub q "heart disease" || containsSub q "cardio" ||
      containsSub q "blood pressure" then .cardio
  else if containsSub q "allergies" || containsSub q "intolerance" then .allergy
  else if containsSub q "healthy bmi" || containsSub q "what is bmi" then .bmiInfo
  else if containsSub q "foods" &&
      (containsSub q "weight loss" || containsSub q "lose weight") then .weightLossFoods
  else if containsSub q "exercise" || containsSub q "workout" then .exercise
  else if containsSub q "balanced diet" then .balancedDiet
  else if containsSub q "hello" || containsSub q "hi" then .greeting
  else .fallback

/-- Python `round` lands within half a unit of its argument. -/
theorem abs_pround_sub_le (x : ℚ) : |(pround x : ℚ) - x| ≤ 1 / 2 := by
  have hle : ((⌊x⌋ : ℤ) : ℚ) ≤ x := Int.floor_le x
  have hlt : x < ((⌊x⌋ : ℤ) : ℚ) + 1 := Int.lt_floor_add_one x
  unfold pround
  rcases lt_trichotomy (x - ((⌊x⌋ : ℤ) : ℚ)) (1 / 2) with h | h | h
  · rw [if_pos h, abs_le]
    constructor <;> linarith
  · rw [if_neg (not_lt.mpr h.ge), if_neg (not_lt.mpr h.le)]
    by_cases hd : 2 ∣ ⌊x⌋
    · rw [if_pos hd, abs_le]
      constructor <;> linarith
    · rw [if_neg hd, abs_le]
      constructor <;> push_cast <;> linarith
  · rw [if_neg (not_lt.mpr h.le), if_pos h, abs_le]
    constructor <;> push_cast <;> linarith

/-- When the macro fractions sum to one, the rounded gram counts weighted
by 4/4/9 kcal per gram land within 8.5 kcal of the calorie target. -/
theorem pround_calorie_bound (c P C F : ℚ) (hPCF : P + C + F = 1) :
    |((pround (c * P / 4) * 4 + pround (c * C / 4) * 4 + pround (c * F / 9) * 9 : ℤ) : ℚ) - c|
      ≤ 17 / 2 := by
  have h1 := abs_pround_sub_le (c * P / 4)
  have h2 := abs_pround_sub_le (c * C / 4)
  have h3 := abs_pround_sub_le (c * F / 9)
  have hc : c * P + c * C + c * F = c := by linear_combination c * hPCF
  have e : ((pround (c * P / 4) * 4 + pround (c * C / 4) * 4 + pround (c * F / 9) * 9 : ℤ) : ℚ) - c
      = 4 * ((pround (c * P / 4) : ℚ) - c * P / 4)
        + 4 * ((pround (c * C / 4) : ℚ) - c * C / 4)
        + 9 * ((pround (c * F / 9) : ℚ) - c * F / 9) := by
    push_cast
    linear_combination hc
  rw [e]
  have t1 : |4 * ((pround (c * P / 4) : ℚ) - c * P / 4)|
      = 4 * |(pround (c * P / 4) : ℚ) - c * P / 4| := by
    rw [abs_mul]; norm_num
  have t2 : |4 * ((pround (c * C / 4) : ℚ) - c * C / 4)|
      = 4 * |(pround (c * C / 4) : ℚ) - c * C / 4| := by
    rw [abs_mul]; norm_num
  have t3 : |9 * ((pround (c * F / 9) : ℚ) - c * F / 9)|
      = 9 * |(pround (c * F / 9) : ℚ) - c * F / 9| := by
    rw [abs_mul]; norm_num
  calc |4 * ((pround (c * P / 4) : ℚ) - c * P / 4)
          + 4 * ((pround (c * C / 4) : ℚ) - c * C / 4)
          + 9 * ((pround (c * F / 9) : ℚ) - c * F / 9)|
      ≤ |4 * ((pround (c * P / 4) : ℚ) - c * P / 4)
          + 4 * ((pround (c * C / 4) : ℚ) - c * C / 4)|
        + |9 * ((pround (c * F / 9) : ℚ) - c * F / 9)| := abs_add _ _
    _ ≤ |4 * ((pround (c * P / 4) : ℚ) - c * P / 4)|
        + |4 * ((pround (c * C / 4) : ℚ) - c * C / 4)|
        + |9 * ((pround (c * F / 9) : ℚ) - c * F / 9)| := by
          have := abs_add (4 * ((pround (c * P / 4) : ℚ) - c * P / 4))
            (4 * ((pround (c * C / 4) : ℚ) - c * C / 4))
          linarith
    _ ≤ 17 / 2 := by
          rw [t1, t2, t3]
          linarith

/-- C1: for positive weight and height, `perform_calculation` returns
`weight / height^2` for metric (kg, m) and `(weight / height^2) * 703`
for imperial, where validation always passes the imperial height as total
inches `feet * 12 + inches`, never inches alone. -/
theorem c1_bmi_formula (weight height : ℚ) (hw : 0 < weight) (hh : 0 < height) :
    perform_calculation weight height .metric = weight / height ^ 2 ∧
    perform_calculation weight height .imperial = weight / height ^ 2 * 703 ∧
    (∀ (f : Form) (ft inch : ℚ), f.unit = .imperial →
      f.ftEntry = .num ft → f.inEntry = .num inch →
      parseHeight f = some (ft * 12 + inch)) := by
  refine ⟨rfl, rfl, ?_⟩
  intro f ft inch hu hft hin
  simp [parseHeight, hu, hft, hin, parseFloatOrZero]

/-- Witness for C1 at weight 70 kg, height 1.75 m. -/
theorem c1_bmi_formula_witness :
    (0 : ℚ) < 70 ∧ (0 : ℚ) < 1.75 ∧
    perform_calculation 70 1.75 .metric = 70 / 1.75 ^ 2 := by
  exact ⟨by norm_num, by norm_num,
    (c1_bmi_formula 70 1.75 (by norm_num) (by norm_num)).1⟩

/-- C2: `categorize_bmi` assigns categories by thresholds inclusive on
the lower bound, and in particular 18.5 and 24.9999 are Normal Weight,
25.0 and 29.9999 are Overweight, and 30.0 is Obesity. -/
theorem c2_category_thresholds (bmi : ℚ) (gender : Gender) (age : ℤ) :
    (bmi < 18.5 → (categorize_bmi bmi gender age).category = "Underweight") ∧
    (18.5 ≤ bmi → bmi < 25.0 → (categorize_bmi bmi gender age).category = "Normal Weight") ∧
    (25.0 ≤ bmi → bmi < 30.0 → (categorize_bmi bmi gender age).category = "Overweight") ∧
    (30.0 ≤ bmi → (categorize_bmi bmi gender age).category = "Obesity") ∧
    (categorize_bmi 18.5 gender age).category = "Normal Weight" ∧
    (categorize_bmi 24.9999 gender age).category = "Normal Weight" ∧
    (categorize_bmi 25.0 gender age).category = "Overweight" ∧
    (categorize_bmi 29.9999 gender age).category = "Overweight" ∧
    (categorize_bmi 30.0 gender age).category = "Obesity" := by
  refine ⟨?_, ?_, ?_, ?_, ?_, ?_, ?_, ?_, ?_⟩
  · intro h
    simp [categorize_bmi, h]
  · intro h1 h2
    simp [categorize_bmi, h1, h2, not_lt.mpr h1]
  · intro h1 h2
    have h0 : ¬ bmi < 18.5 := by linarith
    have h0' : ¬ bmi < 25.0 := by linarith
    simp [categorize_bmi, h0, h0', h1, h2]
  · intro h
    have h0 : ¬ bmi < 18.5 := by linarith
    have h1 : ¬ bmi < 25.0 := by linarith
    have h2 : ¬ bmi < 30.0 := by linarith
    simp [categorize_bmi, h0, h1, h2]
  · norm_num [categorize_bmi]
  · norm_num [categorize_bmi]
  · norm_num [categorize_bmi]
  · norm_num [categorize_bmi]
  · norm_num [categorize_bmi]

/-- Witness for C2 at bmi 20: Normal Weight. -/
theorem c2_category_thresholds_witness :
    (categorize_bmi 20 .male 30).category = "Normal Weight" :=
  (c2_category_thresholds 20 .male 30).2.1 (by norm_num) (by norm_num)

/-- The severe-alert text is never the empty string, so prepending it is
observable on the warning text. -/
theorem alert_msg_ne_empty (bmi : ℚ) : alert_msg bmi ≠ "" := by
  intro h
  have hlen := congrArg String.length h
  rw [alert_msg, String.length_append, String.length_append] at hlen
  have h1 : 0 < ("‼️ **SEVERE HEALTH RISK INDICATOR:** Your BMI is " : String).length := by
    decide
  have h2 : (("" : String)).length = 0 := by decide
  omega

/-- C3: the severe-risk alert is prepended to the warning exactly when
`bmi < 16.0` or `bmi > 35.0`; in that case the color tokens are forced to
the maximum-danger values `COLOR_DANGER` and `#FFCDD2`, while the
category label is still determined by the thresholds alone. -/
theorem c3_severe_alert (bmi : ℚ) (gender : Gender) (age : ℤ) :
    (bmi < 16.0 ∨ 35.0 < bmi →
      (categorize_bmi bmi gender age).warning
          = alert_msg bmi ++ warning_body (categorize_bmi bmi gender age).category gender age ∧
        (categorize_bmi bmi gender age).color = COLOR_DANGER ∧
        (categorize_bmi bmi gender age).bgColor = "#FFCDD2") ∧
    (¬(bmi < 16.0 ∨ 35.0 < bmi) →
      (categorize_bmi bmi gender age).warning
          = warning_body (categorize_bmi bmi gender age).category gender age) ∧
    alert_msg bmi ≠ "" ∧
    (categorize_bmi bmi gender age).category =
      (if bmi < 18.5 then "Underweight"
       else if 18.5 ≤ bmi ∧ bmi < 25.0 then "Normal Weight"
       else if 25.0 ≤ bmi ∧ bmi < 30.0 then "Overweight"
       else "Obesity") := by
  refine ⟨?_, ?_, alert_msg_ne_empty bmi, ?_⟩
  · intro h
    simp only [categorize_bmi, BMI_EXTREME_LOW, BMI_EXTREME_HIGH] at *
    rw [if_pos h, if_pos h, if_pos h]
    exact ⟨rfl, rfl, rfl⟩
  · intro h
    simp only [categorize_bmi, BMI_EXTREME_LOW, BMI_EXTREME_HIGH] at *
    rw [if_neg h]
    simp
  · simp only [categorize_bmi]

/-- Witness for C3 at bmi 40 (Obesity, severe): color overridden, label
unchanged. -/
theorem c3_severe_alert_witness :
    (categorize_bmi 40 .male 30).color = COLOR_DANGER ∧
    (categorize_bmi 40 .male 30).bgColor = "#FFCDD2" :=
  ((c3_severe_alert 40 .male 30).1 (Or.inr (by norm_num))).2

/-- C4: the Energy Planner standardizes weight to kg and height to cm,
computes the gender-specific Harris-Benedict BMR, multiplies by the
activity multiplier for the TDEE, and adjusts by goal (-500 for Lose
Weight, +300 for Gain Muscle, unchanged for Maintain Weight) for the
calorie target. -/
theorem c4_energy_planner (p : Profile) :
    (generate_diet_plan p).weight_kg
        = (if p.unit = .imperial then p.weight / 2.20462 else p.weight) ∧
    (generate_diet_plan p).height_cm
        = (if p.unit = .imperial then p.height * 2.54 else p.height * 100) ∧
    (generate_diet_plan p).bmr
        = (if p.gender = .male then
             88.362 + 13.397 * (generate_diet_plan p).weight_kg
               + 4.799 * (generate_diet_plan p).height_cm - 5.677 * (p.age : ℚ)
           else
             447.593 + 9.247 * (generate_diet_plan p).weight_kg
               + 3.098 * (generate_diet_plan p).height_cm - 4.330 * (p.age : ℚ)) ∧
    (generate_diet_plan p).tdee
        = (generate_diet_plan p).bmr * ACTIVITY_MULTIPLIERS p.activity ∧
    (generate_diet_plan p).cal_target
        = (if p.goal = .loseWeight then (generate_diet_plan p).tdee - 500
           else if p.goal = .gainMuscle then (generate_diet_plan p).tdee + 300
           else (generate_diet_plan p).tdee) := by
  obtain ⟨⟨name, weight, height, age, gender, activity, goal, diet, unit⟩, bmi, category⟩ := p
  cases unit <;> cases gender <;> cases goal <;>
    simp [generate_diet_plan]

/-- C5: for every profile and goal the macro fractions sum to 1, each
gram count is the Python-rounded calorie share over 4 (protein, carbs)
or 9 (fat) kcal per gram, and the grams weighted back to calories land
within rounding distance (at most 8.5 kcal) of the calorie target. -/
theorem c5_macro_calories (p : Profile) :
    (generate_diet_plan p).macroP + (generate_diet_plan p).macroC
        + (generate_diet_plan p).macroF = 1 ∧
    (generate_diet_plan p).prot_g
        = pround ((generate_diet_plan p).cal_target * (generate_diet_plan p).macroP / 4) ∧
    (generate_diet_plan p).carb_g
        = pround ((generate_diet_plan p).cal_target * (generate_diet_plan p).macroC / 4) ∧
    (generate_diet_plan p).fat_g
        = pround ((generate_diet_plan p).cal_target * (generate_diet_plan p).macroF / 9) ∧
    |(((generate_diet_plan p).prot_g * 4 + (generate_diet_plan p).carb_g * 4
        + (generate_diet_plan p).fat_g * 9 : ℤ) : ℚ) - (generate_diet_plan p).cal_target|
      ≤ 17 / 2 := by
  have hsum : (generate_diet_plan p).macroP + (generate_diet_plan p).macroC
      + (generate_diet_plan p).macroF = 1 := by
    cases hg : p.goal <;> simp [generate_diet_plan, hg] <;> norm_num
  refine ⟨hsum, rfl, rfl, rfl, ?_⟩
  exact pround_calorie_bound (generate_diet_plan p).cal_target
    (generate_diet_plan p).macroP (generate_diet_plan p).macroC
    (generate_diet_plan p).macroF hsum

/-- C6: after any `save_history` the list holds at most 20 records, and
appending to a list already holding exactly 20 evicts precisely the
oldest record, keeping the survivors in their original (oldest-to-newest)
order with the new record at the end. -/
theorem c6_history_cap (history : List HistoryRecord) (date : String)
    (inputs : Inputs) (bmi : ℚ) (category : String) :
    (save_history history date inputs bmi category).length ≤ 20 ∧
    (history.length = 20 →
      save_history history date inputs bmi category
        = history.drop 1 ++ [make_record date inputs bmi category]) := by
  constructor
  · simp only [save_history, List.length_drop]
    omega
  · intro h20
    cases history with
    | nil => simp at h20
    | cons a t =>
        have ht : t.length = 19 := by simpa using h20
        simp [save_history, ht]

/-- Sample record used to instantiate the history-cap theorem. -/
def sampleRecord : HistoryRecord :=
  { date := "2026-01-01 00:00", bmi := 22, category := "Normal Weight",
    weight := "70 kg", height := "1.75 m" }

/-- Sample metric inputs used to instantiate theorems at a concrete
profile. -/
def sampleInputs : Inputs :=
  { name := "Alice", weight := 70, height := 1.75, age := 30,
    gender := .female, activity := .moderatelyActive,
    goal := .maintainWeight, diet := .omnivore, unit := .metric }

/-- Witness for C6 on a full 20-record history. -/
theorem c6_history_cap_witness :
    (List.replicate 20 sampleRecord).length = 20 ∧
    save_history (List.replicate 20 sampleRecord) "d" sampleInputs 22 "Normal Weight"
      = (List.replicate 20 sampleRecord).drop 1
          ++ [make_record "d" sampleInputs 22 "Normal Weight"] :=
  ⟨by simp,
   (c6_history_cap (List.replicate 20 sampleRecord) "d" sampleInputs 22
      "Normal Weight").2 (by simp)⟩

/-- C7: a query whose lowercased text contains one of rule 1's water
keywords is answered by the water/hydration branch even when it also
contains one of rule 11's exercise keywords, because the rules are tried
in source order with first match wins. -/
theorem c7_water_priority (query : String)
    (hw : (containsSub (py_lower query) "water status"
        || containsSub (py_lower query) "my water"
        || containsSub (py_lower query) "hydration"
        || containsSub (py_lower query) "how much water") = true)
    (he : (containsSub (py_lower query) "exercise"
        || containsSub (py_lower query) "workout") = true) :
    get_rule_based_response query = .waterStatus ∧
    get_rule_based_response query ≠ .exercise := by
  have h1 : get_rule_based_response query = .waterStatus := by
    simp only [get_rule_based_response]
    rw [if_pos hw]
  refine ⟨h1, ?_⟩
  rw [h1]
  simp

/-- Witness for C7 on the query "hydration and exercise". -/
theorem c7_water_priority_witness :
    get_rule_based_response "hydration and exercise" = .waterStatus ∧
    get_rule_based_response "hydration and exercise" ≠ .exercise :=
  c7_water_priority "hydration and exercise" (by decide) (by decide)

/-- C8: whenever any of the validation failure conditions holds (empty
stripped name, unparsable weight, age or height, non-positive weight or
height, or age outside [16, 120]), `validate_and_get_inputs` reports a
distinguishing error and `calculate_bmi_gui` leaves the state — profile,
history and hydration — exactly as it was. -/
theorem c8_validation_stops (date : String) (f : Form) (s : AppState)
    (hbad : f.name.trim = ""
      ∨ parseFloat f.weightEntry = none
      ∨ parseInt f.ageEntry = none
      ∨ parseHeight f = none
      ∨ (∃ w, parseFloat f.weightEntry = some w ∧ w ≤ 0)
      ∨ (∃ h, parseHeight f = some h ∧ h ≤ 0)
      ∨ (∃ a, parseInt f.ageEntry = some a ∧ ¬(16 ≤ a ∧ a ≤ 120))) :
    (∃ e, validate_and_get_inputs f = .error e) ∧
    calculate_bmi_gui date f s = s := by
  have herr : ∃ e, validate_and_get_inputs f = .error e := by
    unfold validate_and_get_inputs
    by_cases hn : f.name.trim = ""
    · exact ⟨.emptyName, by rw [if_pos hn]⟩
    · rw [if_neg hn]
      cases hw : parseFloat f.weightEntry with
      | none => exact ⟨.invalidNumber, rfl⟩
      | some w =>
        cases ha : parseInt f.ageEntry with
        | none => exact ⟨.invalidNumber, rfl⟩
        | some a =>
          cases hh : parseHeight f with
          | none => exact ⟨.invalidNumber, rfl⟩
          | some h =>
            rcases hbad with hb | hb | hb | hb | ⟨w', hw', hwle⟩ | ⟨h', hh', hhle⟩
              | ⟨a', ha', har⟩
            · exact absurd hb hn
            · rw [hw] at hb; cases hb
            · rw [ha] at hb; cases hb
            · rw [hh] at hb; cases hb
            · rw [hw] at hw'
              injection hw' with hw'
              subst hw'
              exact ⟨.nonPositive, by simp [hwle]⟩
            · rw [hh] at hh'
              injection hh' with hh'
              subst hh'
              exact ⟨.nonPositive, by simp [hhle]⟩
            · rw [ha] at ha'
              injection ha' with ha'
              subst ha'
              by_cases hpos : w ≤ 0 ∨ h ≤ 0
              · rcases hpos with hw0 | hh0
                · exact ⟨.nonPositive, by simp [hw0]⟩
                · exact ⟨.nonPositive, by simp [hh0]⟩
              · push_neg at hpos
                obtain ⟨hw0, hh0⟩ := hpos
                exact ⟨.ageRange, by simp [not_le.mpr hw0, not_le.mpr hh0, har]⟩
  obtain ⟨e, he⟩ := herr
  exact ⟨⟨e, he⟩, by simp [calculate_bmi_gui, he]⟩

/-- A form with a malformed weight entry, used to instantiate the
validation-stops theorem. -/
def badForm : Form :=
  { name := "Bob", unit := .metric, weightEntry := .invalid,
    ageEntry := .num 30, metricHeightEntry := .num 1.75,
    ftEntry := .empty, inEntry := .empty, gender := .male,
    activity := .sedentary, goal := .maintainWeight, diet := .omnivore }

/-- A concrete app state used to instantiate state-transition theorems. -/
def someState : AppState :=
  { current_inputs := none, history := [], water_intake_ml := 0 }

/-- Witness for C8: a malformed weight leaves the state untouched. -/
theorem c8_validation_stops_witness :
    calculate_bmi_gui "d" badForm someState = someState :=
  (c8_validation_stops "d" badForm someState (Or.inr (Or.inl rfl))).2

/-- C9 counterexample: `clear_inputs` is an operation other than
`log_water_intake`, yet on a state with 500 ml logged it changes the
milliliter count (to 0), refuting the claim that every other operation
leaves the count unchanged. -/
theorem c9_hydration_counterexample :
    (clear_inputs { current_inputs := none, history := [], water_intake_ml := 500 }).water_intake_ml
      ≠ ({ current_inputs := none, history := [], water_intake_ml := 500 } : AppState).water_intake_ml := by
  decide

/-- C9 (amended): hydration is non-negative and is changed only by
`log_water_intake` — which adds exactly a positive validated amount and
is a no-op on invalid or non-positive amounts — and by the input-reset
path `clear_inputs` / `update_unit_labels`, which sets it to zero; the
calculation flow leaves it unchanged. -/
theorem c9_hydration_frame (s : AppState) (amountEntry : IntEntry)
    (date : String) (f : Form) :
    (calculate_bmi_gui date f s).water_intake_ml = s.water_intake_ml ∧
    (clear_inputs s).water_intake_ml = 0 ∧
    (update_unit_labels s).water_intake_ml = 0 ∧
    (∀ a, parseInt amountEntry = some a → 0 < a →
      (log_water_intake amountEntry s).water_intake_ml = s.water_intake_ml + a) ∧
    (∀ a, parseInt amountEntry = some a → a ≤ 0 →
      log_water_intake amountEntry s = s) ∧
    (parseInt amountEntry = none → log_water_intake amountEntry s = s) ∧
    (0 ≤ s.water_intake_ml →
      0 ≤ (log_water_intake amountEntry s).water_intake_ml ∧
      0 ≤ (clear_inputs s).water_intake_ml ∧
      0 ≤ (calculate_bmi_gui date f s).water_intake_ml) := by
  have hcalc : (calculate_bmi_gui date f s).water_intake_ml = s.water_intake_ml := by
    unfold calculate_bmi_gui
    cases hv : validate_and_get_inputs f <;> simp
  refine ⟨hcalc, rfl, rfl, ?_, ?_, ?_, ?_⟩
  · intro a hpa ha
    simp [log_water_intake, hpa, not_le.mpr ha]
  · intro a hpa ha
    simp [log_water_intake, hpa, ha]
  · intro hpa
    simp [log_water_intake, hpa]
  · intro hs
    refine ⟨?_, by simp [clear_inputs], by rw [hcalc]; exact hs⟩
    unfold log_water_intake
    cases hpa : parseInt amountEntry with
    | none => exact hs
    | some a =>
        by_cases ha : a ≤ 0
        · simp only [if_pos ha]
          exact hs
        · simp only [if_neg ha]
          push_neg at ha
          show 0 ≤ s.water_intake_ml + a
          omega

/-- Witness for C9 (amended): logging 250 ml onto an empty day adds
exactly 250. -/
theorem c9_hydration_frame_witness :
    (log_water_intake (.num 250) someState).water_intake_ml
      = someState.water_intake_ml + 250 :=
  (c9_hydration_frame someState (.num 250) "d" badForm).2.2.2.1 250 rfl (by norm_num)

/-- C10: for the imperial height 71.6 total inches, the formatted height
string has feet 5 and inches 12 — "5 ft 12 in", not the normalized
"6 ft 0 in" — both in the history record and in the health-report
snapshot, which use the same feet/inches computation. -/
theorem c10_height_not_normalized :
    format_height .imperial 71.6 = "5 ft 12 in" ∧
    format_height .imperial 71.6 ≠ "6 ft 0 in" ∧
    (make_record "2026-01-01 00:00"
        { sampleInputs with unit := .imperial, weight := 150, height := 71.6 }
        21 "Normal Weight").height = "5 ft 12 in" := by
  have hf : (⌊(71.6 : ℚ) / 12⌋ : ℤ) = 5 := by norm_num
  have key : format_height .imperial 71.6 = "5 ft 12 in" := by
    rw [format_height]
    rw [hf]
    have hr : pround ((71.6 : ℚ) - 12 * ((5 : ℤ) : ℚ)) = 12 := by
      norm_num [pround]
    rw [hr]
    decide
  refine ⟨key, ?_, ?_⟩
  · rw [key]
    decide
  · show format_height .imperial 71.6 = "5 ft 12 in"
    exact key

end BMICalc
